import Mathlib

/-!
Verification of the convex-solidjs binding layer (src/index.tsx).

The file embeds the query-binding reconciliation adapter (useQuery) and the
mutation/action invoker (useMutation / useAction) as executable Lean
definitions, and proves the spec claims about them.

Modelling notes.
* JavaScript values are modelled by the inductive JSVal; the JS notion of
  undefined is modelled by Option.none at each use site, since the code only
  tests definedness with !== undefined and truthiness with !.
* Error objects are JSError; a thrown JS value (which need not be an Error)
  is Thrown; normalizeError embeds the expression
  error instanceof Error ? error : new Error(String(error)).
* The external Convex client and the Solid reactivity runtime are external
  collaborators: they are modelled from their consumed contracts.
  - client.client.localQueryResult is a synchronous call that may return a
    value, return undefined, or throw; each fetch consults an environment
    supplied CacheOutcome.
  - client.onUpdate registers a pair of callbacks and returns an unsubscribe
    function; an unsubscribed callback is never invoked again, so a push
    event carries the id of the subscription delivering it and a push whose
    id is not currently active is a no-op.
  - Solid createResource: the async fetcher body of useQuery contains no
    await, so it computes its result synchronously when the source changes
    (loadStart below) and the promise settles on a later microtask (the
    settle event).  While a fetch is in flight, resource.loading is true and
    resource() returns the previously resolved value; when the fetcher
    rejects, the resolved value is retained and resource() rethrows the
    error only once no fetch is in flight; resource.latest behaves like
    resource() here (no Suspense is involved).  resource.error never throws.
* The === comparison in the isStale memo compares data() with
  resource.latest; in every reachable state both come from the same stored
  reference, so structural equality is a faithful model.
-/

/-- JavaScript primitive values as far as the binding inspects them. -/
inductive JSVal where
  | null
  | bool (b : Bool)
  | num (n : Int)
  | str (s : String)
deriving DecidableEq

/-- JS truthiness of a defined value: null, false, 0 and "" are falsy. -/
def truthy : JSVal → Bool
  | .null => false
  | .bool b => b
  | .num n => n != 0
  | .str s => s != ""

/-- JS truthiness of a possibly-undefined value: undefined is falsy. -/
def truthyOpt : Option JSVal → Bool
  | none => false
  | some v => truthy v

/-- The JS String(v) conversion used by new Error(String(error)). -/
def jsToString : JSVal → String
  | .null => "null"
  | .bool true => "true"
  | .bool false => "false"
  | .num n => toString n
  | .str s => s

/-- A JS Error object (only its message is relevant to the binding). -/
structure JSError where
  msg : String
deriving DecidableEq

/-- A thrown JS value: either already an Error object or a raw value. -/
inductive Thrown where
  | errObj (e : JSError)
  | raw (v : JSVal)
deriving DecidableEq

/-- Embeds: error instanceof Error ? error : new Error(String(error)). -/
def normalizeError : Thrown → JSError
  | .errObj e => e
  | .raw v => ⟨jsToString v⟩

/-- Outcome of one synchronous client.client.localQueryResult call:
a defined value, undefined (cache miss), or a thrown lookup error. -/
inductive CacheOutcome where
  | val (v : JSVal)
  | miss
  | throws
deriving DecidableEq

/-- The QueryOptions record of src/index.tsx.  An absent enabled field is
indistinguishable from true, since the code only tests enabled === false. -/
structure QueryOptions where
  enabled : Bool := true
  initialData : Option JSVal := none
  keepPreviousData : Bool := false
deriving DecidableEq

deriving instance DecidableEq for Except

/-- The anonymous async fetcher of createResource in useQuery
(src/index.tsx lines 98-121), run with the values its closure reads:
the cache outcome, the liveError and liveData signals, opts.initialData and
the version signal.  It returns the resolved value (possibly undefined) or
throws the live error. -/
def queryFetcher (cache : CacheOutcome) (liveErr : Option JSError)
    (liveDat : Option JSVal) (initData : Option JSVal) (version : Nat) :
    Except JSError (Option JSVal) :=
  -- try { const result = localQueryResult(...); if (result !== undefined) return result } catch {}
  match cache with
  | .val v => .ok (some v)
  | _ =>
    -- const error = liveError(); if (error) throw error
    match liveErr with
    | some e => .error e
    | none =>
      -- const data = liveData(); if (data !== undefined) return data
      match liveDat with
      | some d => .ok (some d)
      | none =>
        -- if (opts.initialData !== undefined && version() === 0) return opts.initialData
        match initData, version with
        | some i, 0 => .ok (some i)
        | _, _ => .ok none

/-- Full state of one useQuery binding: its options, the current resolved
arguments, the version / liveData / liveError signals, the ids of the
client subscriptions currently registered (with a fresh-id counter), and
the createResource bookkeeping (last resolved value, last rejection, and
the not-yet-settled fetch result, if a fetch is in flight). -/
structure QueryState where
  opts : QueryOptions
  args : JSVal
  version : Nat
  liveData : Option JSVal
  liveError : Option JSError
  activeSubs : List Nat
  nextSub : Nat
  resValue : Option JSVal
  resError : Option JSError
  pendingFetch : Option (Except JSError (Option JSVal))
deriving DecidableEq

/-- resource.loading: a fetch is in flight. -/
def resLoading (s : QueryState) : Bool := s.pendingFetch.isSome

/-- The resource source memo re-evaluated to a non-null value, so the
fetcher runs synchronously and its promise is now pending.  When
enabled === false the source memo returns null and nothing is fetched. -/
def loadStart (s : QueryState) (cache : CacheOutcome) : QueryState :=
  if s.opts.enabled then
    let pr := queryFetcher cache s.liveError s.liveData s.opts.initialData s.version
    { s with pendingFetch := some pr }
  else s

/-- The in-flight fetch promise settles (a microtask after loadStart): a
resolution stores the value and clears the resource error; a rejection
stores the error and retains the previously resolved value. -/
def settleFetch (s : QueryState) : QueryState :=
  match s.pendingFetch with
  | none => s
  | some (.ok v) => { s with pendingFetch := none, resValue := v, resError := none }
  | some (.error e) => { s with pendingFetch := none, resError := some e }

/-- The subscription createEffect (src/index.tsx lines 125-150) re-ran:
its cleanup unsubscribes every previously registered subscription, then a
fresh subscription is registered unless enabled === false.  Cleanup and
re-subscription happen inside one synchronous reactive step. -/
def subscribeFresh (s : QueryState) : QueryState :=
  if s.opts.enabled then
    { s with activeSubs := [s.nextSub], nextSub := s.nextSub + 1 }
  else
    { s with activeSubs := [] }

/-- External events driving one useQuery binding.  Every event that can
re-run the fetcher carries the CacheOutcome the client would produce for
the localQueryResult call at that moment. -/
inductive QEvent where
  | argsChange (a : JSVal) (cache : CacheOutcome)
  | setEnabled (b : Bool) (cache : CacheOutcome)
  | push (sid : Nat) (v : JSVal) (cache : CacheOutcome)
  | pushErr (sid : Nat) (e : JSError) (cache : CacheOutcome)
  | settle
  | refetch (cache : CacheOutcome)
deriving DecidableEq

/-- One reactive step of the useQuery binding.
* argsChange: the getArgs memo changed; the subscription effect tears the
  old subscription down and registers a fresh one, and the resource source
  changed so a new fetch starts.
* setEnabled: a changed enabled flag re-runs the subscription effect; a
  source that became null settles the resource to its current value with
  the error cleared (Solid loadEnd on a null lookup), a source that became
  non-null starts a fetch.
* push / pushErr: the onUpdate callbacks (lines 129-146).  The client only
  delivers to currently registered callbacks, so a stale sid is a no-op.
  A delivered push updates liveData, liveError and version in one batch;
  the version change makes the source memo re-evaluate, starting a fetch.
* settle: the pending fetch promise resolves or rejects.
* refetch: the refetch() escape hatch re-runs the fetcher. -/
def queryStep (s : QueryState) : QEvent → QueryState
  | .argsChange a cache => loadStart (subscribeFresh { s with args := a }) cache
  | .setEnabled b cache =>
    if b == s.opts.enabled then s
    else
      let s1 := subscribeFresh { s with opts := { s.opts with enabled := b } }
      if b then loadStart s1 cache
      else { s1 with pendingFetch := none, resError := none }
  | .push sid v cache =>
    if sid ∈ s.activeSubs then
      loadStart { s with liveData := some v, liveError := none, version := s.version + 1 } cache
    else s
  | .pushErr sid e cache =>
    if sid ∈ s.activeSubs then
      loadStart { s with liveError := some e, liveData := none, version := s.version + 1 } cache
    else s
  | .settle => settleFetch s
  | .refetch cache => loadStart s cache

/-- Mounting a useQuery binding: all signals start empty, the resource
fetches immediately (unless disabled), and the subscription effect runs. -/
def initQuery (opts : QueryOptions) (args0 : JSVal) (cache : CacheOutcome) :
    QueryState :=
  subscribeFresh (loadStart
    { opts := opts, args := args0, version := 0, liveData := none,
      liveError := none, activeSubs := [], nextSub := 0, resValue := none,
      resError := none, pendingFetch := none } cache)

/-- Run a useQuery binding through a list of events. -/
def runQuery (s : QueryState) (evs : List QEvent) : QueryState :=
  evs.foldl queryStep s

/-- resource(): returns the resolved value; rethrows the stored rejection
only when no fetch is in flight (while refetching, the stale value is
returned without throwing). -/
def resourceRead (s : QueryState) : Except JSError (Option JSVal) :=
  match s.resError, s.pendingFetch with
  | some e, none => .error e
  | _, _ => .ok s.resValue

/-- resource.latest: without Suspense it behaves exactly like resource(). -/
def resourceLatest (s : QueryState) : Except JSError (Option JSVal) :=
  resourceRead s

/-- The data memo (lines 153-159): if keepPreviousData and the resource is
loading and resource.latest is truthy, expose resource.latest, else
resource().  Short-circuiting means resource.latest is only read while
loading. -/
def dataMemo (s : QueryState) : Except JSError (Option JSVal) :=
  if s.opts.keepPreviousData && resLoading s then
    match resourceLatest s with
    | .error e => .error e
    | .ok lv => if truthyOpt lv then .ok lv else resourceRead s
  else resourceRead s

/-- The error memo (line 161): resource.error, which never throws. -/
def errorMemo (s : QueryState) : Option JSError := s.resError

/-- The isLoading memo (line 162): resource.loading && !data().  The JS !
uses truthiness, so a present but falsy data value also counts as absent. -/
def isLoadingMemo (s : QueryState) : Except JSError Bool :=
  if resLoading s then (dataMemo s).map (fun v => !(truthyOpt v)) else .ok false

/-- The isStale memo (lines 163-170):
Boolean(keepPreviousData && resource.loading && resource.latest && data() === resource.latest). -/
def isStaleMemo (s : QueryState) : Except JSError Bool :=
  if s.opts.keepPreviousData && resLoading s then
    match resourceLatest s with
    | .error e => .error e
    | .ok lv =>
      if truthyOpt lv then (dataMemo s).map (fun dv => decide (dv = lv))
      else .ok false
  else .ok false

/-- The MutationState record of src/index.tsx (shared by useMutation and
useAction): optional data, optional error, and the isLoading flag.
Omitted fields of a setState argument are undefined, i.e. none. -/
structure MutationState where
  data : Option JSVal := none
  error : Option JSError := none
  isLoading : Bool := false
deriving DecidableEq

/-- reset (line 222): setState({ isLoading: false }) replaces the whole
state record, so data and error are cleared unconditionally. -/
def mutationReset (_s : MutationState) : MutationState :=
  { isLoading := false }

/-- Events of one useMutation binding.  cid identifies an invocation so
that late completions of superseded calls can be expressed; the code
itself never inspects it (there is no currentness guard). -/
inductive MEvent where
  | invoke (cid : Nat)
  | completeOk (cid : Nat) (r : JSVal)
  | completeErr (cid : Nat) (t : Thrown)
  | reset
deriving DecidableEq

/-- One state transition of the useMutation binding (lines 208-222):
invoke is setState({ isLoading: true }); a completion applies its result
unconditionally, with a thrown value normalized; reset clears everything. -/
def mutationStep (s : MutationState) : MEvent → MutationState
  | .invoke _ => { isLoading := true }
  | .completeOk _ r => { data := some r, isLoading := false }
  | .completeErr _ t => { error := some (normalizeError t), isLoading := false }
  | .reset => mutationReset s

/-- Run a useMutation binding through a list of events. -/
def runMutation (s : MutationState) (evs : List MEvent) : MutationState :=
  evs.foldl mutationStep s

/-- A whole mutateAsync call (lines 208-220) with no interleaving: the
state after invocation and completion, paired with the value returned to
the caller (the result, or the normalized error re-raised). -/
def mutateAsyncRun (s : MutationState) (cid : Nat)
    (outcome : Except Thrown JSVal) :
    MutationState × Except JSError JSVal :=
  let s1 := mutationStep s (.invoke cid)
  match outcome with
  | .ok r => (mutationStep s1 (.completeOk cid r), .ok r)
  | .error t => (mutationStep s1 (.completeErr cid t), .error (normalizeError t))

/-- reset of useAction (line 264): textually identical to useMutation. -/
def actionReset (_s : MutationState) : MutationState :=
  { isLoading := false }

/-- One state transition of the useAction binding (lines 250-264):
textually identical to the useMutation transitions. -/
def actionStep (s : MutationState) : MEvent → MutationState
  | .invoke _ => { isLoading := true }
  | .completeOk _ r => { data := some r, isLoading := false }
  | .completeErr _ t => { error := some (normalizeError t), isLoading := false }
  | .reset => actionReset s

/-- A whole executeAsync call (lines 250-262) of useAction. -/
def executeAsyncRun (s : MutationState) (cid : Nat)
    (outcome : Except Thrown JSVal) :
    MutationState × Except JSError JSVal :=
  let s1 := actionStep s (.invoke cid)
  match outcome with
  | .ok r => (actionStep s1 (.completeOk cid r), .ok r)
  | .error t => (actionStep s1 (.completeErr cid t), .error (normalizeError t))

/-! Helper lemmas: field preservation of the elementary transitions. -/

@[simp] lemma loadStart_activeSubs (s : QueryState) (c : CacheOutcome) :
    (loadStart s c).activeSubs = s.activeSubs := by
  unfold loadStart; split <;> rfl

@[simp] lemma loadStart_nextSub (s : QueryState) (c : CacheOutcome) :
    (loadStart s c).nextSub = s.nextSub := by
  unfold loadStart; split <;> rfl

@[simp] lemma loadStart_liveData (s : QueryState) (c : CacheOutcome) :
    (loadStart s c).liveData = s.liveData := by
  unfold loadStart; split <;> rfl

@[simp] lemma loadStart_liveError (s : QueryState) (c : CacheOutcome) :
    (loadStart s c).liveError = s.liveError := by
  unfold loadStart; split <;> rfl

@[simp] lemma loadStart_version (s : QueryState) (c : CacheOutcome) :
    (loadStart s c).version = s.version := by
  unfold loadStart; split <;> rfl

@[simp] lemma loadStart_args (s : QueryState) (c : CacheOutcome) :
    (loadStart s c).args = s.args := by
  unfold loadStart; split <;> rfl

@[simp] lemma loadStart_opts (s : QueryState) (c : CacheOutcome) :
    (loadStart s c).opts = s.opts := by
  unfold loadStart; split <;> rfl

@[simp] lemma settleFetch_activeSubs (s : QueryState) :
    (settleFetch s).activeSubs = s.activeSubs := by
  unfold settleFetch; split <;> rfl

@[simp] lemma settleFetch_nextSub (s : QueryState) :
    (settleFetch s).nextSub = s.nextSub := by
  unfold settleFetch; split <;> rfl

@[simp] lemma settleFetch_liveData (s : QueryState) :
    (settleFetch s).liveData = s.liveData := by
  unfold settleFetch; split <;> rfl

@[simp] lemma settleFetch_liveError (s : QueryState) :
    (settleFetch s).liveError = s.liveError := by
  unfold settleFetch; split <;> rfl

@[simp] lemma settleFetch_version (s : QueryState) :
    (settleFetch s).version = s.version := by
  unfold settleFetch; split <;> rfl

@[simp] lemma settleFetch_opts (s : QueryState) :
    (settleFetch s).opts = s.opts := by
  unfold settleFetch; split <;> rfl

@[simp] lemma subscribeFresh_liveData (s : QueryState) :
    (subscribeFresh s).liveData = s.liveData := by
  unfold subscribeFresh; split <;> rfl

@[simp] lemma subscribeFresh_liveError (s : QueryState) :
    (subscribeFresh s).liveError = s.liveError := by
  unfold subscribeFresh; split <;> rfl

@[simp] lemma subscribeFresh_version (s : QueryState) :
    (subscribeFresh s).version = s.version := by
  unfold subscribeFresh; split <;> rfl

@[simp] lemma subscribeFresh_opts (s : QueryState) :
    (subscribeFresh s).opts = s.opts := by
  unfold subscribeFresh; split <;> rfl

/-- A state of a useQuery binding is reachable when some mount followed by
some event sequence produces it. -/
def QueryReachable (s : QueryState) : Prop :=
  ∃ opts a0 c0 evs, s = runQuery (initQuery opts a0 c0) evs

/-- The structural invariant of the subscription manager: at most one
registered subscription, every registered id below the fresh-id counter,
and the liveData / liveError signals never simultaneously set. -/
def QueryInv (s : QueryState) : Prop :=
  s.activeSubs.length ≤ 1 ∧ (∀ i ∈ s.activeSubs, i < s.nextSub) ∧
    ¬(s.liveData.isSome ∧ s.liveError.isSome)

lemma subscribeFresh_inv (s : QueryState)
    (h : ¬(s.liveData.isSome ∧ s.liveError.isSome)) :
    QueryInv (subscribeFresh s) := by
  unfold QueryInv subscribeFresh
  split <;> simp <;> simpa using h

lemma queryInv_loadStart (s : QueryState) (c : CacheOutcome)
    (h : QueryInv s) : QueryInv (loadStart s c) := by
  unfold QueryInv at h ⊢
  simpa using h

lemma queryInv_settleFetch (s : QueryState) (h : QueryInv s) :
    QueryInv (settleFetch s) := by
  unfold QueryInv at h ⊢
  simpa using h

lemma queryStep_inv (s : QueryState) (ev : QEvent) (h : QueryInv s) :
    QueryInv (queryStep s ev) := by
  obtain ⟨h1, h2, h3⟩ := h
  cases ev with
  | argsChange a c =>
    simp only [queryStep]
    exact queryInv_loadStart _ _ (subscribeFresh_inv _ (by simpa using h3))
  | setEnabled b c =>
    simp only [queryStep]
    split
    · exact ⟨h1, h2, h3⟩
    · have hinv := subscribeFresh_inv
        { s with opts := { s.opts with enabled := b } } (by simpa using h3)
      split
      · exact queryInv_loadStart _ _ hinv
      · obtain ⟨g1, g2, g3⟩ := hinv
        exact ⟨by simpa using g1, by simpa using g2, by simpa using g3⟩
  | push sid v c =>
    simp only [queryStep]
    split
    · refine queryInv_loadStart _ _ ⟨by simpa using h1, by simpa using h2, by simp⟩
    · exact ⟨h1, h2, h3⟩
  | pushErr sid e c =>
    simp only [queryStep]
    split
    · refine queryInv_loadStart _ _ ⟨by simpa using h1, by simpa using h2, by simp⟩
    · exact ⟨h1, h2, h3⟩
  | settle =>
    exact queryInv_settleFetch s ⟨h1, h2, h3⟩
  | refetch c =>
    exact queryInv_loadStart s c ⟨h1, h2, h3⟩

lemma initQuery_inv (opts : QueryOptions) (a0 : JSVal) (c0 : CacheOutcome) :
    QueryInv (initQuery opts a0 c0) := by
  unfold initQuery
  exact subscribeFresh_inv _ (by simp)

lemma runQuery_inv (s : QueryState) (evs : List QEvent) (h : QueryInv s) :
    QueryInv (runQuery s evs) := by
  induction evs generalizing s with
  | nil => simpa [runQuery] using h
  | cons ev evs ih =>
    simpa [runQuery] using ih (queryStep s ev) (queryStep_inv s ev h)

lemma reachable_inv (s : QueryState) (h : QueryReachable s) : QueryInv s := by
  obtain ⟨opts, a0, c0, evs, rfl⟩ := h
  exact runQuery_inv _ _ (initQuery_inv opts a0 c0)

lemma push_not_active (s : QueryState) (sid : Nat) (v : JSVal)
    (c : CacheOutcome) (h : sid ∉ s.activeSubs) :
    queryStep s (QEvent.push sid v c) = s := by
  simp [queryStep, h]

lemma pushErr_not_active (s : QueryState) (sid : Nat) (e : JSError)
    (c : CacheOutcome) (h : sid ∉ s.activeSubs) :
    queryStep s (QEvent.pushErr sid e c) = s := by
  simp [queryStep, h]

/-- C2 (confirmed).  In every reachable state of a useQuery binding at most
one client subscription is registered (so every sequence of argument
changes keeps a single subscription active), every registered id is below
the fresh-id counter, a push or error push whose subscription id is no
longer registered leaves the state untouched (post-teardown pushes are
no-ops), and after an argument change every previously registered
subscription id is de-registered, so no update from stale arguments can
reach the exposed state after the change. -/
theorem useQuery_single_subscription (s : QueryState) (h : QueryReachable s) :
    s.activeSubs.length ≤ 1 ∧
    (∀ i ∈ s.activeSubs, i < s.nextSub) ∧
    (∀ sid v c, sid ∉ s.activeSubs → queryStep s (QEvent.push sid v c) = s) ∧
    (∀ sid e c, sid ∉ s.activeSubs → queryStep s (QEvent.pushErr sid e c) = s) ∧
    (∀ sid, sid ∈ s.activeSubs → ∀ a c,
      sid ∉ (queryStep s (QEvent.argsChange a c)).activeSubs) := by
  obtain ⟨h1, h2, h3⟩ := reachable_inv s h
  refine ⟨h1, h2, fun sid v c hn => push_not_active s sid v c hn,
    fun sid e c hn => pushErr_not_active s sid e c hn, fun sid hm a c => ?_⟩
  have hlt : sid < s.nextSub := h2 sid hm
  simp only [queryStep, loadStart_activeSubs]
  unfold subscribeFresh
  split
  · simp
    omega
  · simp

/-- Witness for C2: in the freshly mounted binding the only registered
subscription id is 0, and a push carrying the foreign id 5 is a no-op. -/
theorem useQuery_single_subscription_witness :
    queryStep (runQuery (initQuery {} (JSVal.num 1) CacheOutcome.miss) [])
        (QEvent.push 5 (JSVal.num 3) CacheOutcome.miss) =
      runQuery (initQuery {} (JSVal.num 1) CacheOutcome.miss) [] := by
  exact (useQuery_single_subscription _
    ⟨{}, JSVal.num 1, CacheOutcome.miss, [], rfl⟩).2.2.1 5 (JSVal.num 3)
    CacheOutcome.miss (by decide)

/-- C1 (counterexample).  With keepPreviousData enabled, mount with
arguments A, receive a live push with R1 = num 7 for A, then change the
arguments to B while the cache misses and no push for B ever arrives: the
trace contains no push after the argument change, yet once the refetch
promise settles (a microtask later) isStale() is false while data() still
returns R1.  During the in-flight window isStale() was true, so the claim
that isStale() stays true until a value or error for B arrives is false:
the fetcher falls back to the retained liveData signal, which is not keyed
by arguments, and resolves immediately with R1. -/
theorem useQuery_staleness_counterexample :
    (isStaleMemo (runQuery
        (initQuery { keepPreviousData := true } (JSVal.num 1) CacheOutcome.miss)
        [QEvent.settle, QEvent.push 0 (JSVal.num 7) CacheOutcome.miss,
         QEvent.settle, QEvent.argsChange (JSVal.num 2) CacheOutcome.miss]) =
      Except.ok true) ∧
    (dataMemo (runQuery
        (initQuery { keepPreviousData := true } (JSVal.num 1) CacheOutcome.miss)
        [QEvent.settle, QEvent.push 0 (JSVal.num 7) CacheOutcome.miss,
         QEvent.settle, QEvent.argsChange (JSVal.num 2) CacheOutcome.miss,
         QEvent.settle]) = Except.ok (some (JSVal.num 7))) ∧
    (isStaleMemo (runQuery
        (initQuery { keepPreviousData := true } (JSVal.num 1) CacheOutcome.miss)
        [QEvent.settle, QEvent.push 0 (JSVal.num 7) CacheOutcome.miss,
         QEvent.settle, QEvent.argsChange (JSVal.num 2) CacheOutcome.miss,
         QEvent.settle]) = Except.ok false) := by
  refine ⟨by decide, by decide, by decide⟩

/-- C1 (amended).  With keepPreviousData enabled, after the arguments
change from A (whose live result is R1) to B with a cache miss and no live
value for B, data() returns R1 and isStale() is true while the refetch is
in flight; the refetch resolves with the retained previous live value
(liveData is not cleared on an argument change), so when it settles,
isStale() becomes false even though no value or error for B has arrived,
while data() keeps returning R1. -/
theorem useQuery_staleness_amended (s : QueryState) (R1 B : JSVal)
    (henk : s.opts.enabled = true) (hkpd : s.opts.keepPreviousData = true)
    (hld : s.liveData = some R1) (hle : s.liveError = none)
    (hrv : s.resValue = some R1) (hre : s.resError = none)
    (hpf : s.pendingFetch = none) (htr : truthy R1 = true) :
    dataMemo (queryStep s (QEvent.argsChange B CacheOutcome.miss)) =
      Except.ok (some R1) ∧
    isStaleMemo (queryStep s (QEvent.argsChange B CacheOutcome.miss)) =
      Except.ok true ∧
    dataMemo (queryStep (queryStep s (QEvent.argsChange B CacheOutcome.miss))
      QEvent.settle) = Except.ok (some R1) ∧
    isStaleMemo (queryStep (queryStep s (QEvent.argsChange B CacheOutcome.miss))
      QEvent.settle) = Except.ok false := by
  obtain ⟨o, a, ver, ld, le, subs, ns, rv, re, pf⟩ := s
  simp only at henk hkpd hld hle hrv hre hpf
  subst hld hle hrv hre hpf
  refine ⟨?_, ?_, ?_, ?_⟩ <;>
    simp [queryStep, loadStart, subscribeFresh, settleFetch, dataMemo,
      isStaleMemo, resourceLatest, resourceRead, resLoading, queryFetcher,
      truthyOpt, Except.map, henk, hkpd, htr]

/-- Witness for C1 (amended) at a concrete post-push state. -/
theorem useQuery_staleness_amended_witness :
    dataMemo (queryStep
      { opts := { keepPreviousData := true }, args := JSVal.num 1,
        version := 1, liveData := some (JSVal.num 7), liveError := none,
        activeSubs := [0], nextSub := 1, resValue := some (JSVal.num 7),
        resError := none, pendingFetch := none }
      (QEvent.argsChange (JSVal.num 2) CacheOutcome.miss)) =
      Except.ok (some (JSVal.num 7)) := by
  exact (useQuery_staleness_amended
    { opts := { keepPreviousData := true }, args := JSVal.num 1,
      version := 1, liveData := some (JSVal.num 7), liveError := none,
      activeSubs := [0], nextSub := 1, resValue := some (JSVal.num 7),
      resError := none, pendingFetch := none }
    (JSVal.num 7) (JSVal.num 2) rfl rfl rfl rfl rfl rfl rfl rfl).1

/-- C5 (confirmed).  If the synchronous local cache read returns a defined
value V, the fetcher resolves with V immediately, so after mounting with a
cache hit and letting the fetch promise settle — with no live push in the
trace — data() equals V and no error is exposed.  A cache read that throws
behaves exactly like one that returns undefined (the catch block swallows
it), and the fetcher can only reject with the live subscription error, so
a cache miss or lookup error is never surfaced as the binding error. -/
theorem useQuery_cache_read :
    (∀ V lE lD i ver, queryFetcher (CacheOutcome.val V) lE lD i ver =
      Except.ok (some V)) ∧
    (∀ lE lD i ver, queryFetcher CacheOutcome.throws lE lD i ver =
      queryFetcher CacheOutcome.miss lE lD i ver) ∧
    (∀ c lE lD i ver e, queryFetcher c lE lD i ver = Except.error e →
      lE = some e) ∧
    (∀ opts a0 V, opts.enabled = true →
      dataMemo (runQuery (initQuery opts a0 (CacheOutcome.val V))
          [QEvent.settle]) = Except.ok (some V) ∧
      errorMemo (runQuery (initQuery opts a0 (CacheOutcome.val V))
          [QEvent.settle]) = none) := by
  refine ⟨fun V lE lD i ver => rfl, fun lE lD i ver => rfl, ?_, ?_⟩
  · intro c lE lD i ver e h
    cases c <;> cases lE <;> cases lD <;> simp [queryFetcher] at h <;>
      first
      | (rw [h])
      | (rcases i with _ | i0 <;> rcases ver with _ | v0 <;> simp at h)
  · intro opts a0 V henk
    constructor <;>
      simp [runQuery, initQuery, queryStep, loadStart, subscribeFresh,
        settleFetch, queryFetcher, dataMemo, errorMemo, resourceRead,
        resourceLatest, resLoading, henk]

/-- Witness for C5: a cache hit with value num 7 on a default-option mount
is exposed as data() = num 7 with no error after one settle, and a cache
lookup that throws while the live error is absent cannot have produced a
fetcher rejection. -/
theorem useQuery_cache_read_witness :
    (dataMemo (runQuery (initQuery {} (JSVal.num 1)
        (CacheOutcome.val (JSVal.num 7))) [QEvent.settle]) =
      Except.ok (some (JSVal.num 7)) ∧
    errorMemo (runQuery (initQuery {} (JSVal.num 1)
        (CacheOutcome.val (JSVal.num 7))) [QEvent.settle]) = none) ∧
    ((some ⟨"E"⟩ : Option JSError) = some ⟨"E"⟩) := by
  refine ⟨useQuery_cache_read.2.2.2 {} (JSVal.num 1) (JSVal.num 7) rfl, ?_⟩
  exact useQuery_cache_read.2.2.1 CacheOutcome.miss (some ⟨"E"⟩) none none 3
    ⟨"E"⟩ (by decide)

/-- C6 (counterexample).  With initialData = num 9, mount with arguments
A = num 1, let the fetch settle, then change the arguments to B = num 2
(cache miss, still no push ever): after the refetch settles, data() is
still the initial value num 9 although the current argument set B is not
the very first one — the code gates initialData on version() === 0, i.e.
on no push having arrived yet, not on the argument set being the first. -/
theorem useQuery_initial_data_counterexample :
    (runQuery (initQuery { initialData := some (JSVal.num 9) } (JSVal.num 1)
        CacheOutcome.miss)
        [QEvent.settle, QEvent.argsChange (JSVal.num 2) CacheOutcome.miss,
         QEvent.settle]).args = JSVal.num 2 ∧
    dataMemo (runQuery (initQuery { initialData := some (JSVal.num 9) }
        (JSVal.num 1) CacheOutcome.miss)
        [QEvent.settle, QEvent.argsChange (JSVal.num 2) CacheOutcome.miss,
         QEvent.settle]) = Except.ok (some (JSVal.num 9)) := by
  exact ⟨rfl, rfl⟩

/-- C6 (amended).  The initial value is returned by the fetcher exactly
while the version counter is 0, that is before the first live push for the
binding, which includes later argument sets reached before any push; once
the version counter is nonzero the initialData option is irrelevant to the
fetcher, a processed push always sets the counter to its predecessor plus
one, and the counter never decreases, so after the first live push the
initial value is never produced by the initialData branch again.  A live
error always wins over initialData, so it never masks a failure. -/
theorem useQuery_initial_data_amended :
    (∀ c lE lD i ver, ver ≠ 0 →
      queryFetcher c lE lD i ver = queryFetcher c lE lD none ver) ∧
    (∀ i, queryFetcher CacheOutcome.miss none none (some i) 0 =
      Except.ok (some i)) ∧
    (∀ e lD i ver, queryFetcher CacheOutcome.miss (some e) lD i ver =
      Except.error e) ∧
    (∀ s ev, s.version ≤ (queryStep s ev).version) ∧
    (∀ s sid v c, sid ∈ s.activeSubs →
      (queryStep s (QEvent.push sid v c)).version = s.version + 1) ∧
    (∀ s sid e c, sid ∈ s.activeSubs →
      (queryStep s (QEvent.pushErr sid e c)).version = s.version + 1) := by
  refine ⟨?_, fun i => rfl, fun e lD i ver => rfl, ?_, ?_, ?_⟩
  · intro c lE lD i ver hv
    rcases ver with _ | v0
    · exact absurd rfl hv
    · cases c <;> cases lE <;> cases lD <;> cases i <;> rfl
  · intro s ev
    cases ev with
    | argsChange a c => simp [queryStep]
    | setEnabled b c =>
      simp only [queryStep]
      split
      · exact le_refl _
      · split <;> simp
    | push sid v c =>
      simp only [queryStep]
      split <;> simp
    | pushErr sid e c =>
      simp only [queryStep]
      split <;> simp
    | settle => simp [queryStep]
    | refetch c => simp [queryStep]
  · intro s sid v c hm
    simp [queryStep, hm]
  · intro s sid e c hm
    simp [queryStep, hm]

/-- Witness for C6 (amended) at version 1 and at a concrete push. -/
theorem useQuery_initial_data_amended_witness :
    (queryFetcher CacheOutcome.miss none none (some (JSVal.num 9)) 1 =
      queryFetcher CacheOutcome.miss none none none 1) ∧
    (queryStep (runQuery (initQuery {} (JSVal.num 1) CacheOutcome.miss) [])
        (QEvent.push 0 (JSVal.num 5) CacheOutcome.miss)).version =
      (runQuery (initQuery {} (JSVal.num 1) CacheOutcome.miss) []).version
        + 1 := by
  refine ⟨useQuery_initial_data_amended.1 CacheOutcome.miss none none
    (some (JSVal.num 9)) 1 (by decide), ?_⟩
  exact useQuery_initial_data_amended.2.2.2.2.1 _ 0 (JSVal.num 5)
    CacheOutcome.miss (by decide)

/-- C7 (counterexample).  Mount, receive value num 5, then an error push E,
then a further value push num 9: while the refetch triggered by the last
push is still in flight, the exposed error() is still E (resource.error is
only cleared when the new fetch resolves) while data() returns the
retained value num 5 — so value and error are simultaneously visible in
the exposed result, refuting mutual exclusion at ALL times.  (The
liveData / liveError signals themselves are mutually exclusive; the
transient overlap comes from the resource layer.) -/
theorem useQuery_push_exclusivity_counterexample :
    (errorMemo (runQuery (initQuery {} (JSVal.num 1) CacheOutcome.miss)
        [QEvent.settle, QEvent.push 0 (JSVal.num 5) CacheOutcome.miss,
         QEvent.settle, QEvent.pushErr 0 ⟨"E"⟩ CacheOutcome.miss,
         QEvent.settle,
         QEvent.push 0 (JSVal.num 9) CacheOutcome.miss])).isSome = true ∧
    dataMemo (runQuery (initQuery {} (JSVal.num 1) CacheOutcome.miss)
        [QEvent.settle, QEvent.push 0 (JSVal.num 5) CacheOutcome.miss,
         QEvent.settle, QEvent.pushErr 0 ⟨"E"⟩ CacheOutcome.miss,
         QEvent.settle,
         QEvent.push 0 (JSVal.num 9) CacheOutcome.miss]) =
      Except.ok (some (JSVal.num 5)) := by
  exact ⟨rfl, rfl⟩

/-- C7 (amended).  A processed success push updates, in one atomic step,
exactly the live value (set), the live error (cleared) and the version
counter (incremented by one); a processed failure push does the symmetric
update; the version counter never decreases along any step; in every
reachable state the liveData and liveError signals are never both set; and
the exposed data() and error() are mutually exclusive whenever no fetch is
in flight (error() set forces data() to rethrow rather than return a
value).  During an in-flight refetch that follows an error the old error
can transiently coexist with the retained previous value (see the
counterexample), so exclusivity holds for all settled states only. -/
theorem useQuery_push_update_amended (s : QueryState)
    (hreach : QueryReachable s) :
    (∀ sid v c, sid ∈ s.activeSubs →
      (queryStep s (QEvent.push sid v c)).liveData = some v ∧
      (queryStep s (QEvent.push sid v c)).liveError = none ∧
      (queryStep s (QEvent.push sid v c)).version = s.version + 1) ∧
    (∀ sid e c, sid ∈ s.activeSubs →
      (queryStep s (QEvent.pushErr sid e c)).liveError = some e ∧
      (queryStep s (QEvent.pushErr sid e c)).liveData = none ∧
      (queryStep s (QEvent.pushErr sid e c)).version = s.version + 1) ∧
    ¬(s.liveData.isSome ∧ s.liveError.isSome) ∧
    (∀ ev, s.version ≤ (queryStep s ev).version) ∧
    (∀ e, s.pendingFetch = none → errorMemo s = some e →
      dataMemo s = Except.error e) := by
  obtain ⟨h1, h2, h3⟩ := reachable_inv s hreach
  refine ⟨?_, ?_, h3, ?_, ?_⟩
  · intro sid v c hm
    refine ⟨?_, ?_, ?_⟩ <;> simp [queryStep, hm]
  · intro sid e c hm
    refine ⟨?_, ?_, ?_⟩ <;> simp [queryStep, hm]
  · intro ev
    cases ev with
    | argsChange a c => simp [queryStep]
    | setEnabled b c =>
      simp only [queryStep]
      split
      · exact le_refl _
      · split <;> simp
    | push sid v c =>
      simp only [queryStep]
      split <;> simp
    | pushErr sid e c =>
      simp only [queryStep]
      split <;> simp
    | settle => simp [queryStep]
    | refetch c => simp [queryStep]
  · intro e hpf herr
    unfold errorMemo at herr
    simp [dataMemo, resLoading, resourceRead, resourceLatest, hpf, herr]

/-- Witness for C7 (amended) at the freshly mounted binding. -/
theorem useQuery_push_update_amended_witness :
    (queryStep (runQuery (initQuery {} (JSVal.num 1) CacheOutcome.miss) [])
        (QEvent.push 0 (JSVal.num 5) CacheOutcome.miss)).liveData =
      some (JSVal.num 5) ∧
    (queryStep (runQuery (initQuery {} (JSVal.num 1) CacheOutcome.miss) [])
        (QEvent.push 0 (JSVal.num 5) CacheOutcome.miss)).liveError = none ∧
    (queryStep (runQuery (initQuery {} (JSVal.num 1) CacheOutcome.miss) [])
        (QEvent.push 0 (JSVal.num 5) CacheOutcome.miss)).version =
      (runQuery (initQuery {} (JSVal.num 1) CacheOutcome.miss) []).version
        + 1 := by
  exact (useQuery_push_update_amended _
    ⟨{}, JSVal.num 1, CacheOutcome.miss, [], rfl⟩).1 0 (JSVal.num 5)
    CacheOutcome.miss (by decide)

/-- C10 (confirmed).  The isLoading memo is resource.loading && !data():
whenever data() evaluates to the possibly-undefined value v, isLoading()
is exactly the conjunction of the resource being in flight and v being
JS-falsy; undefined, null, false, 0 and the empty string are all falsy, so
a present falsy value counts as absent.  In particular the reachable state
obtained by mounting with initialData = num 0, settling, and changing the
arguments has data() = num 0 (a present value) together with
isLoading() = true. -/
theorem useQuery_isLoading_falsy :
    (∀ s v, dataMemo s = Except.ok v →
      isLoadingMemo s = Except.ok (resLoading s && !(truthyOpt v))) ∧
    (truthyOpt (some JSVal.null) = false ∧
     truthyOpt (some (JSVal.bool false)) = false ∧
     truthyOpt (some (JSVal.num 0)) = false ∧
     truthyOpt (some (JSVal.str "")) = false ∧
     truthyOpt none = false) ∧
    (dataMemo (runQuery (initQuery { initialData := some (JSVal.num 0) }
        (JSVal.num 1) CacheOutcome.miss)
        [QEvent.settle, QEvent.argsChange (JSVal.num 2) CacheOutcome.miss]) =
      Except.ok (some (JSVal.num 0)) ∧
    isLoadingMemo (runQuery (initQuery { initialData := some (JSVal.num 0) }
        (JSVal.num 1) CacheOutcome.miss)
        [QEvent.settle, QEvent.argsChange (JSVal.num 2) CacheOutcome.miss]) =
      Except.ok true) := by
  refine ⟨?_, ⟨rfl, rfl, by decide, by decide, rfl⟩, rfl, rfl⟩
  intro s v h
  unfold isLoadingMemo
  cases hl : resLoading s with
  | false => simp [hl]
  | true => simp [hl, h, Except.map]

/-- Witness for C10 at the falsy-present reachable state. -/
theorem useQuery_isLoading_falsy_witness :
    isLoadingMemo (runQuery (initQuery { initialData := some (JSVal.num 0) }
        (JSVal.num 1) CacheOutcome.miss)
        [QEvent.settle, QEvent.argsChange (JSVal.num 2) CacheOutcome.miss]) =
      Except.ok ((resLoading (runQuery
        (initQuery { initialData := some (JSVal.num 0) }
          (JSVal.num 1) CacheOutcome.miss)
        [QEvent.settle, QEvent.argsChange (JSVal.num 2) CacheOutcome.miss]))
        && !(truthyOpt (some (JSVal.num 0)))) := by
  exact useQuery_isLoading_falsy.1 _ (some (JSVal.num 0)) rfl

/-- C3 (counterexample).  Start from a binding whose previous successful
call stored data = num 4.  Invoking again runs setState({isLoading: true}),
which replaces the whole state record: data is cleared immediately, not
kept visible; and if the new call fails, data() afterwards is undefined,
not the pre-call value num 4.  This refutes the claim that data from a
previous successful call remains unchanged until overwritten. -/
theorem useMutation_data_retention_counterexample :
    (mutationStep { data := some (JSVal.num 4) } (MEvent.invoke 0)).data
      ≠ some (JSVal.num 4) ∧
    (mutationStep { data := some (JSVal.num 4) } (MEvent.invoke 0)).data
      = none ∧
    ((mutateAsyncRun { data := some (JSVal.num 4) } 0
        (Except.error (Thrown.errObj ⟨"E"⟩))).1).data ≠ some (JSVal.num 4) ∧
    ((mutateAsyncRun { data := some (JSVal.num 4) } 0
        (Except.error (Thrown.errObj ⟨"E"⟩))).1).data = none := by
  refine ⟨by decide, rfl, by decide, rfl⟩

/-- C3 (amended).  Invoking mutate/mutateAsync (or the action equivalent)
sets isLoading to true and clears BOTH any prior error and any prior data
in the same state replacement; data from a previous successful call does
not remain visible, and after a failed call data() is undefined regardless
of its pre-call value. -/
theorem useMutation_invoke_clears_state :
    (∀ s cid, mutationStep s (MEvent.invoke cid) =
      { data := none, error := none, isLoading := true }) ∧
    (∀ s cid t, (mutateAsyncRun s cid (Except.error t)).1 =
      { data := none, error := some (normalizeError t), isLoading := false }) ∧
    (∀ s cid, actionStep s (MEvent.invoke cid) =
      { data := none, error := none, isLoading := true }) ∧
    (∀ s cid t, (executeAsyncRun s cid (Except.error t)).1 =
      { data := none, error := some (normalizeError t), isLoading := false }) := by
  exact ⟨fun s cid => rfl, fun s cid t => rfl, fun s cid => rfl,
    fun s cid t => rfl⟩

/-- C4 (counterexample).  Invoke (state isLoading), reset (state cleared),
then let the superseded in-flight call complete with result num 3: the
completion is applied unconditionally, so the cleared state is overwritten
with data = num 3 — the code has no guard comparing the completing call
with a current one, refuting the claim that a post-reset completion does
not mutate the cleared state. -/
theorem useMutation_reset_guard_counterexample :
    (mutationStep (mutationStep { isLoading := true } MEvent.reset)
        (MEvent.completeOk 7 (JSVal.num 3))).data = some (JSVal.num 3) ∧
    (mutationStep { isLoading := true } MEvent.reset).data = none ∧
    mutationStep (mutationStep { isLoading := true } MEvent.reset)
        (MEvent.completeOk 7 (JSVal.num 3)) ≠
      mutationStep { isLoading := true } MEvent.reset := by
  refine ⟨rfl, rfl, by decide⟩

/-- C4 (amended).  reset unconditionally clears data and error and forces
isLoading = false, also while a call is in flight; but a completion of any
call — including one superseded by reset — is applied unconditionally to
the state (there is no check that the call is still the current one), so
an in-flight call that completes after reset does overwrite the cleared
state with its result or error.  The same holds for useAction. -/
theorem useMutation_reset_unguarded :
    (∀ s, mutationStep s MEvent.reset =
      { data := none, error := none, isLoading := false }) ∧
    (∀ s cid r, mutationStep s (MEvent.completeOk cid r) =
      { data := some r, error := none, isLoading := false }) ∧
    (∀ s cid t, mutationStep s (MEvent.completeErr cid t) =
      { data := none, error := some (normalizeError t), isLoading := false }) ∧
    (∀ s, actionStep s MEvent.reset =
      { data := none, error := none, isLoading := false }) ∧
    (∀ s cid r, actionStep s (MEvent.completeOk cid r) =
      { data := some r, error := none, isLoading := false }) ∧
    (∀ s cid t, actionStep s (MEvent.completeErr cid t) =
      { data := none, error := some (normalizeError t), isLoading := false }) := by
  exact ⟨fun s => rfl, fun s cid r => rfl, fun s cid t => rfl, fun s => rfl,
    fun s cid r => rfl, fun s cid t => rfl⟩

/-- C8 (confirmed).  A failing mutation or action invocation normalizes a
non-Error thrown value into an error object carrying String(value) as its
message (an Error object is kept as is), stores exactly that normalized
error in the state with isLoading = false and data unset, and returns the
same normalized error through the call's rejection channel, so the failure
is reported both in the reactive state and to the caller. -/
theorem useMutation_failure_dual_report :
    (∀ s cid t, mutateAsyncRun s cid (Except.error t) =
      ({ data := none, error := some (normalizeError t), isLoading := false },
        Except.error (normalizeError t))) ∧
    (∀ s cid t, executeAsyncRun s cid (Except.error t) =
      ({ data := none, error := some (normalizeError t), isLoading := false },
        Except.error (normalizeError t))) ∧
    (∀ e, normalizeError (Thrown.errObj e) = e) ∧
    (∀ v, normalizeError (Thrown.raw v) = ⟨jsToString v⟩) := by
  exact ⟨fun s cid t => rfl, fun s cid t => rfl, fun e => rfl, fun v => rfl⟩

/-- C9 (confirmed).  reset of a mutation or action binding always produces
the state with no data, no error and isLoading = false, from any state, so
calling it once or repeatedly yields the same cleared state: reset is
idempotent and constant. -/
theorem useMutation_reset_idempotent :
    (∀ s, mutationReset s =
      { data := none, error := none, isLoading := false }) ∧
    (∀ s, mutationReset (mutationReset s) = mutationReset s) ∧
    (∀ s, actionReset s =
      { data := none, error := none, isLoading := false }) ∧
    (∀ s, actionReset (actionReset s) = actionReset s) := by
  exact ⟨fun s => rfl, fun s => rfl, fun s => rfl, fun s => rfl⟩
